import Mathlib

/- Verification of the kAIcad plan-application engine against its
natural-language specification.

The development shallowly embeds the core modules:
  * src/kaicad/core/writer.py   (grid snapping, index building, pin lookup,
                                 apply_plan state machine)
  * src/kaicad/utils/validation.py (validate_symbol_name, validate_wire_format,
                                 validate_coordinate)
  * src/kaicad/schema/plan.py   (Plan / Op / Diagnostic / ApplyResult data
                                 model and its JSON wire format)

Modelling conventions:
  * Python floats are modelled as exact rationals (ℚ); Python round() is
    round-half-to-even, modelled by roundHalfEven below.
  * Python dicts are modelled as association lists with dict-insertion
    semantics (update-in-place keeps the original key position, new keys are
    appended), so key iteration order matches CPython.
  * The mutable Schematic document is modelled as an explicit Document value;
    apply_plan returns the updated document next to its ApplyResult.
  * External kicad-skip library behaviour (Symbol.from_lib availability, and
    whether the call raises) is an explicit Env parameter; collection
    new/append operations on the document are modelled as total.
-/

/-- KiCad grid constant: 2.54mm (100 mil) - standard schematic grid. -/
def GRID_MM : ℚ := 254 / 100

/-- Python round(): round half to even (banker's rounding), as used by
snap_to_grid via `round(value / grid)`. -/
def roundHalfEven (q : ℚ) : ℤ :=
  if q - ⌊q⌋ < 1 / 2 then ⌊q⌋
  else if 1 / 2 < q - ⌊q⌋ then ⌊q⌋ + 1
  else if ⌊q⌋ % 2 = 0 then ⌊q⌋ else ⌊q⌋ + 1

/-- Function snap_to_grid from writer.py: `round(value / grid) * grid`. -/
def snap_to_grid (value : ℚ) (grid : ℚ) : ℚ :=
  (roundHalfEven (value / grid) : ℚ) * grid

/- ------------------------------------------------------------------ -/
/- Validation layer: src/kaicad/utils/validation.py                    -/
/- ------------------------------------------------------------------ -/

/-- Python str.strip() whitespace set (ASCII part; the inputs the writer
validates are ASCII strings). -/
def isPySpace (c : Char) : Bool :=
  c = ' ' || c = '\t' || c = '\n' || c = '\r' || c = '\x0b' || c = '\x0c'

/-- Python str.strip(): drop whitespace from both ends. -/
def pyStrip (cs : List Char) : List Char :=
  ((cs.dropWhile isPySpace).reverse.dropWhile isPySpace).reverse

/-- Python s.split(sep, 1) at the first colon: `some (before, after)` when a
colon occurs, `none` otherwise; so `none` is exactly the case where the
Python membership test finds no colon in s. -/
def splitFirstColon : List Char → Option (List Char × List Char)
  | [] => none
  | c :: rest =>
    if c = ':' then some ([], rest)
    else
      match splitFirstColon rest with
      | some (a, b) => some (c :: a, b)
      | none => none

def isUpperAZ (c : Char) : Bool := 'A' ≤ c && c ≤ 'Z'

def isDigit09 (c : Char) : Bool := '0' ≤ c && c ≤ '9'

/-- Model of the anchored regex of uppercase letters then digits, as applied
by re.match on a string with no trailing newline
(validate_wire_format applies it to an already-stripped reference, so the
Python `$`-before-final-newline case cannot arise): one or more uppercase
ASCII letters followed by one or more ASCII digits. -/
def refPatternMatch (cs : List Char) : Bool :=
  !(cs.takeWhile isUpperAZ).isEmpty &&
    !(cs.dropWhile isUpperAZ).isEmpty &&
    (cs.dropWhile isUpperAZ).all isDigit09

/-- Function validate_wire_format from validation.py. Diagnostic message texts are
paraphrased (quotes dropped); validity, parse result and presence of an
error message follow the source exactly. -/
def validate_wire_format (s : String) :
    Bool × Option String × Option (String × String) :=
  let cs := s.toList
  if pyStrip cs = [] then
    (false, some "Wire specification cannot be empty", none)
  else
    match splitFirstColon cs with
    | none => (false, some ("Wire format must be REF:PIN, got " ++ s), none)
    | some (refPart, pinPart) =>
      if pyStrip refPart = [] then
        (false, some "Component reference cannot be empty", none)
      else if refPatternMatch (pyStrip refPart) = false then
        (false, some ("Invalid component reference " ++ String.mk refPart ++
          " (expected format: R1, U5, C10)"), none)
      else if pyStrip pinPart = [] then
        (false, some "Pin name/number cannot be empty", none)
      else if 50 < pinPart.length then
        (false, some "Pin name too long", none)
      else
        (true, none, some (String.mk (pyStrip refPart), String.mk (pyStrip pinPart)))

/-- Acceptance predicate exactly as claim C7 words it: the string splits at
the first colon into a reference part matching `^[A-Z]+[0-9]+$` (with no
stripping) and a non-empty pin part of length at most 50. -/
def wireFormatSpecAccepts (s : String) : Bool :=
  match splitFirstColon s.toList with
  | none => false
  | some (refPart, pinPart) =>
    refPatternMatch refPart && decide (pinPart ≠ []) &&
      decide (pinPart.length ≤ 50)

/-- Acceptance predicate as the code actually behaves: reference and pin are
whitespace-stripped before the reference pattern / non-emptiness tests, while
the length bound applies to the unstripped pin part. -/
def wireFormatAccepts (s : String) : Bool :=
  match splitFirstColon s.toList with
  | none => false
  | some (refPart, pinPart) =>
    refPatternMatch (pyStrip refPart) && decide (pyStrip pinPart ≠ []) &&
      decide (pinPart.length ≤ 50)

def symbolNameChar (c : Char) : Bool :=
  isUpperAZ c || ('a' ≤ c && c ≤ 'z') || isDigit09 c ||
    c = '_' || c = '-' || c = '+' || c = '.' || c = ' '

/-- Substring test for two consecutive dots, as in the Python membership
check of the traversal guard. -/
def hasDotDot : List Char → Bool
  | [] => false
  | [_] => false
  | a :: b :: rest => (a = '.' && b = '.') || hasDotDot (b :: rest)

/-- Python regex `$` may match just before one final newline; model it by
stripping at most one trailing newline before an anchored match. -/
def dropFinalNewline (cs : List Char) : List Char :=
  match cs.getLast? with
  | some c => if c = '\n' then cs.dropLast else cs
  | none => cs

/-- Model of the anchored symbol-name regex (class, colon, class):
since ':' is not in the class, a match is exactly one colon with non-empty
all-class parts on both sides (after Python's `$`/final-newline rule). -/
def symbolPatternMatch (cs : List Char) : Bool :=
  match splitFirstColon (dropFinalNewline cs) with
  | none => false
  | some (lib, rest) =>
    decide (lib ≠ []) && lib.all symbolNameChar &&
      decide (rest ≠ []) && rest.all symbolNameChar

/-- Function validate_symbol_name from validation.py (messages paraphrased without
quote characters). -/
def validate_symbol_name (s : String) : Bool × Option String :=
  let cs := s.toList
  if pyStrip cs = [] then (false, some "Symbol name cannot be empty")
  else
    match splitFirstColon cs with
    | none => (false, some "Symbol must be in format Library:Name")
    | some (lib, rest) =>
      if pyStrip lib = [] ∨ pyStrip rest = [] then
        (false, some "Library and symbol name cannot be empty")
      else if hasDotDot lib || hasDotDot rest then
        (false, some "Symbol name contains path traversal")
      else if cs.contains '/' || cs.contains '\\' then
        (false, some "Symbol name contains path separators")
      else if symbolPatternMatch cs = false then
        (false, some "Symbol name contains invalid characters")
      else if 200 < cs.length then
        (false, some "Symbol name too long (max 200 characters)")
      else (true, none)

def MAX_COORD : ℚ := 1000000

/-- Function validate_coordinate from validation.py, on an already-typed coordinate
pair: for a Plan's `at` field pydantic has already coerced the value to a
2-tuple of floats, so the iterable/length/numeric/NaN/infinity checks of the
source cannot fail; only the magnitude bound remains. -/
def validate_coordinate (c : ℚ × ℚ) : Bool × Option String × Option (ℚ × ℚ) :=
  if MAX_COORD < |c.1| ∨ MAX_COORD < |c.2| then
    (false, some "Coordinate values exceed maximum 1000000.0", none)
  else (true, none, some c)

/- ------------------------------------------------------------------ -/
/- Data model: src/kaicad/schema/plan.py                               -/
/- ------------------------------------------------------------------ -/

def PLAN_SCHEMA_VERSION : Int := 1

structure Diagnostic where
  stage : String
  severity : String
  ref : Option String
  message : String
  suggestion : Option String
deriving DecidableEq

structure ApplyResult where
  success : Bool
  diagnostics : List Diagnostic
  affected_refs : List String
deriving DecidableEq

/-- Operations, the tagged union AddComponent | Wire | Label. The `fields`
mapping of AddComponent is a string-to-string association list, as in the
schema. -/
inductive Op where
  | add_component (ref symbol value : String) (at_ : ℚ × ℚ) (rot : Int)
      (fields : List (String × String))
  | wire (from_ to_ : String)
  | label (net : String) (at_ : ℚ × ℚ)
deriving DecidableEq

/-- A Plan; `constraints` is unused metadata (modelled as a string-valued
mapping). -/
structure Plan where
  plan_version : Int
  ops : List Op
  constraints : List (String × String)
deriving DecidableEq

/- ------------------------------------------------------------------ -/
/- Document model (the external kicad-skip Schematic collaborator)     -/
/- ------------------------------------------------------------------ -/

/-- One pin of a symbol's `.pin` collection; `loc = none` models a pin whose
location attribute access raises (such pins are skipped). -/
structure PinModel where
  number : String
  name : String
  loc : Option (ℚ × ℚ)
deriving DecidableEq

/-- A symbol handle. `reference` models the probed reference designator
(get_symbol_ref); `pinLocsApi = some m` models a get_pin_locations() method
that exists and returns `m` without raising, `none` models the method being
absent or raising; `pinColl` models the `.pin` collection (`none` = absent
or raising); `atPos` models `sym.at.value` when it is a list of length ≥ 2. -/
structure SymbolModel where
  reference : Option String
  pinLocsApi : Option (List (String × (ℚ × ℚ)))
  pinColl : Option (List PinModel)
  atPos : Option (ℚ × ℚ)
deriving DecidableEq

structure WireModel where
  pts : List (ℚ × ℚ)
deriving DecidableEq

structure LabelModel where
  value : String
  atPos : ℚ × ℚ
deriving DecidableEq

/-- The schematic document: symbol, wire and label collections. Collection
`new`/`append` operations are modelled as total (the modelled environments
have working collections). -/
structure Document where
  symbol : List SymbolModel
  wire : List WireModel
  label : List LabelModel
deriving DecidableEq

/-- External-library behaviour switches: whether `Symbol.from_lib` exists,
and whether calling it raises. -/
structure Env where
  fromLibAvailable : Bool
  fromLibRaises : Bool
deriving DecidableEq

/- Python dict as an association list: assignment to an existing key updates
in place (keeping the key's position), a new key is appended; so dictKeys
reproduces CPython's insertion-order iteration. -/

def dictInsert {α : Type} : List (String × α) → String → α → List (String × α)
  | [], k, v => [(k, v)]
  | (k', v') :: rest, k, v =>
    if k' = k then (k, v) :: rest else (k', v') :: dictInsert rest k v

def dictGet {α : Type} : List (String × α) → String → Option α
  | [], _ => none
  | (k', v) :: rest, k => if k' = k then some v else dictGet rest k

def dictKeys {α : Type} (xs : List (String × α)) : List String :=
  xs.map Prod.fst

/- ------------------------------------------------------------------ -/
/- Writer: src/kaicad/core/writer.py                                   -/
/- ------------------------------------------------------------------ -/

/-- Function get_symbol_ref: the hasattr-probing extraction chain collapses to the
symbol's reference designator (or none when no reference is extractable). -/
def get_symbol_ref (sym : SymbolModel) : Option String := sym.reference

/-- Function build_ref_index: left-to-right scan, later symbols overwrite earlier
ones with the same reference; falsy (empty) references are skipped. -/
def build_ref_index (doc : Document) : List (String × SymbolModel) :=
  doc.symbol.foldl (fun index sym =>
    match get_symbol_ref sym with
    | some r => if r = "" then index else dictInsert index r sym
    | none => index) []

/-- Function build_pin_index: builds an empty per-reference map (the loop body is a
`pass`; the per-reference maps stay empty and are never consulted). -/
def build_pin_index (ref_index : List (String × SymbolModel)) :
    List (String × List (String × Option (ℚ × ℚ))) :=
  ref_index.map (fun p => (p.1, []))

/-- Hard-coded two-pin fallback of `get_pin_locations_compat`: pins "1" and
"2" at ±2.54mm horizontally from the symbol position, when the position is
known; empty otherwise. -/
def fallbackPinLocations (sym : SymbolModel) : List (String × (ℚ × ℚ)) :=
  match sym.atPos with
  | some (x, y) => [("1", (x - 254 / 100, y)), ("2", (x + 254 / 100, y))]
  | none => []

/-- Function get_pin_locations_compat from writer.py. -/
def get_pin_locations_compat (sym : SymbolModel) : List (String × (ℚ × ℚ)) :=
  match sym.pinLocsApi with
  | some locs => locs
  | none =>
    match sym.pinColl with
    | none => fallbackPinLocations sym
    | some [] => fallbackPinLocations sym
    | some pins =>
      pins.foldl (fun locs pin =>
        match pin.loc with
        | none => locs
        | some coord =>
          let locs1 := dictInsert locs pin.number coord
          if pin.name = "" ∨ pin.name = "~" then locs1
          else dictInsert locs1 pin.name coord) []

/-- Function lookup_pin_coords from writer.py: returns the coordinate (or none) and
the diagnostics it appends. The pin_index parameter is carried but never
consulted, as in the source. -/
def lookup_pin_coords (ref pin_name : String)
    (ref_index : List (String × SymbolModel))
    (_pin_index : List (String × List (String × Option (ℚ × ℚ)))) :
    Option (ℚ × ℚ) × List Diagnostic :=
  match dictGet ref_index ref with
  | none =>
    (none, [⟨"writer", "error", some ref,
      "Component " ++ ref ++ " not found in schematic",
      some "Ensure component is added before wiring"⟩])
  | some sym =>
    let pin_locations := get_pin_locations_compat sym
    if pin_locations = [] then
      (none, [⟨"writer", "warning", some ref,
        "Pin coordinates not yet available for " ++ ref ++
          " (symbol created but library definitions not loaded)",
        some "Save and reload schematic, or wire will be skipped for now"⟩])
    else
      match dictGet pin_locations pin_name with
      | some coord => (some coord, [])
      | none =>
        (none, [⟨"writer", "error", some ref,
          "Pin " ++ pin_name ++ " not found on " ++ ref,
          some ("Available pins: " ++
            String.intercalate ", " ((dictKeys pin_locations).take 10))⟩])

/-- The mutable state threaded through apply_plan's operation loop. -/
structure ApplyState where
  doc : Document
  diagnostics : List Diagnostic
  affected_refs : List String
  ref_index : List (String × SymbolModel)
  pin_index : List (String × List (String × Option (ℚ × ℚ)))
  components_added : Bool

def snapPoint (c : ℚ × ℚ) : ℚ × ℚ :=
  (snap_to_grid c.1 GRID_MM, snap_to_grid c.2 GRID_MM)

/-- The symbol `Symbol.from_lib` adds to the document (value/rotation/extra
fields are display metadata set best-effort and not represented). A freshly
created symbol has no pin data yet. -/
def newSymbolFromLib (ref : String) (c : ℚ × ℚ) : SymbolModel :=
  ⟨some ref, none, none, some c⟩

/-- The add_component arm of apply_plan's loop. -/
def applyAddComponent (env : Env) (st : ApplyState) (ref symbol : String)
    (at_ : ℚ × ℚ) : ApplyState :=
  if (validate_symbol_name symbol).1 = false then
    { st with diagnostics := st.diagnostics ++
        [⟨"writer", "error", some ref,
          "Invalid symbol name: " ++ ((validate_symbol_name symbol).2.getD ""),
          some "Use valid KiCad format Library:Name (e.g., Device:R)"⟩] }
  else if env.fromLibAvailable = false then
    { st with diagnostics := st.diagnostics ++
        [⟨"writer", "error", some ref,
          "Failed to add component: Symbol.from_lib is not available in kicad-skip 0.2.5",
          some "Component creation is not supported in kicad-skip 0.2.5. Workaround: Add components manually in KiCad first, then use kAIcad for connections and labels only."⟩] }
  else if (validate_coordinate at_).1 = false then
    { st with diagnostics := st.diagnostics ++
        [⟨"writer", "error", some ref,
          "Invalid coordinate: " ++ ((validate_coordinate at_).2.1.getD ""),
          some "Use [x, y] format with numeric values"⟩] }
  else if env.fromLibRaises then
    { st with diagnostics := st.diagnostics ++
        [⟨"writer", "error", some ref,
          "Failed to add component: Symbol.from_lib raised",
          some "This environment does not support creating symbols programmatically with kicad-skip."⟩] }
  else
    { st with
        doc := ⟨st.doc.symbol ++ [newSymbolFromLib ref (snapPoint at_)],
          st.doc.wire, st.doc.label⟩,
        affected_refs := st.affected_refs ++ [ref],
        components_added := true,
        diagnostics := st.diagnostics ++
          [⟨"writer", "info", some ref,
            "Added " ++ ref ++ " (" ++ symbol ++ ")", none⟩] }

/-- The reference index a wire operation uses: rebuilt when components were
added since the last build. -/
def wireRefIndex (st : ApplyState) : List (String × SymbolModel) :=
  if st.components_added then build_ref_index st.doc else st.ref_index

def wirePinIndex (st : ApplyState) :
    List (String × List (String × Option (ℚ × ℚ))) :=
  if st.components_added then build_pin_index (build_ref_index st.doc)
  else st.pin_index

/-- The wire arm of apply_plan's loop. -/
def applyWireOp (st : ApplyState) (from_ to_ : String) : ApplyState :=
  let st1 : ApplyState :=
    { st with
        ref_index := wireRefIndex st
        pin_index := wirePinIndex st
        components_added := false }
  match validate_wire_format from_ with
  | (false, from_error, _) =>
    { st1 with diagnostics := st1.diagnostics ++
        [⟨"writer", "error", none,
          "Invalid from wire format: " ++ from_error.getD "",
          some "Use format REF:PIN (e.g., R1:1)"⟩] }
  | (true, _, fromParts) =>
    match validate_wire_format to_ with
    | (false, to_error, _) =>
      { st1 with diagnostics := st1.diagnostics ++
          [⟨"writer", "error", none,
            "Invalid to wire format: " ++ to_error.getD "",
            some "Use format REF:PIN (e.g., R1:2)"⟩] }
    | (true, _, toParts) =>
      match fromParts, toParts with
      | some (from_ref, from_pin), some (to_ref, to_pin) =>
        let fromLookup :=
          lookup_pin_coords from_ref from_pin st1.ref_index st1.pin_index
        let toLookup :=
          lookup_pin_coords to_ref to_pin st1.ref_index st1.pin_index
        let ds := st1.diagnostics ++ fromLookup.2 ++ toLookup.2
        match fromLookup.1, toLookup.1 with
        | some p1, some p2 =>
          { st1 with
              doc := ⟨st1.doc.symbol, st1.doc.wire ++ [⟨[p1, p2]⟩],
                st1.doc.label⟩,
              affected_refs := st1.affected_refs ++ [from_ref, to_ref],
              diagnostics := ds ++
                [⟨"writer", "info", some from_ref,
                  "Connected wire from " ++ from_ref ++ ":" ++ from_pin ++
                    " to " ++ to_ref ++ ":" ++ to_pin, none⟩] }
        | _, _ => { st1 with diagnostics := ds }
      | _, _ => st1

/-- The label arm of apply_plan's loop. Note: it never touches
affected_refs. -/
def applyLabelOp (st : ApplyState) (net : String) (at_ : ℚ × ℚ) : ApplyState :=
  if (validate_coordinate at_).1 = false then
    { st with diagnostics := st.diagnostics ++
        [⟨"writer", "error", none,
          "Invalid label coordinate: " ++ ((validate_coordinate at_).2.1.getD ""),
          some "Use [x, y] format with numeric values"⟩] }
  else
    { st with
        doc := ⟨st.doc.symbol, st.doc.wire,
          st.doc.label ++ [⟨net, snapPoint at_⟩]⟩,
        diagnostics := st.diagnostics ++
          [⟨"writer", "info", none, "Added label " ++ net, none⟩] }

def applyOp (env : Env) (st : ApplyState) (op : Op) : ApplyState :=
  match op with
  | .add_component ref symbol _value at_ _rot _fields =>
    applyAddComponent env st ref symbol at_
  | .wire from_ to_ => applyWireOp st from_ to_
  | .label net at_ => applyLabelOp st net at_

/-- Function apply_plan from writer.py. The Python function mutates `doc` in place;
here the updated document is returned next to the ApplyResult. -/
def apply_plan (env : Env) (doc : Document) (plan : Plan) :
    ApplyResult × Document :=
  if plan.plan_version ≠ PLAN_SCHEMA_VERSION then
    (⟨false,
      [⟨"validator", "error", none,
        "Plan schema version mismatch: plan has v" ++
          toString plan.plan_version ++ ", writer expects v" ++
          toString PLAN_SCHEMA_VERSION,
        some "Re-run the planner to generate a compatible plan, or run a schema migrator if available"⟩],
      []⟩, doc)
  else
    let ref_index := build_ref_index doc
    let pin_index := build_pin_index ref_index
    let st := plan.ops.foldl (applyOp env) ⟨doc, [], [], ref_index, pin_index, false⟩
    (⟨!(st.diagnostics.any (fun d => d.severity == "error")),
      st.diagnostics, st.affected_refs⟩, st.doc)

/- Concrete fixtures used by witnesses and counterexamples. -/

def env0 : Env := ⟨true, false⟩

def docEmpty : Document := ⟨[], [], []⟩

def planV2 : Plan := ⟨2, [], []⟩

/-- An invalid AddComponent (symbol name lacks the colon) followed by a valid
Label operation. -/
def planBadSymThenLabel : Plan :=
  ⟨1, [Op.add_component "R1" "DeviceR" "1k" (0, 0) 0 [],
       Op.label "VCC" (0, 0)], []⟩

/-- A symbol with no pin data obtainable at all (no pin-location API, no pin
collection, no known position). -/
def symNoPins : SymbolModel := ⟨some "R2", none, none, none⟩

/-- A symbol whose pin-location query yields exactly pin "1". -/
def symOnePin : SymbolModel := ⟨some "R3", some [("1", (0, 0))], none, none⟩

def refIdx1 : List (String × SymbolModel) := [("R2", symNoPins), ("R3", symOnePin)]

def st0 : ApplyState := ⟨docEmpty, [], [], refIdx1, [], false⟩

/-- A freshly created symbol: position known, no pin data loaded yet. -/
def symFresh : SymbolModel := ⟨some "R1", none, none, some (0, 0)⟩

/- ------------------------------------------------------------------ -/
/- Plan JSON wire format: pydantic model_dump_json(by_alias=True) and  -/
/- Plan.model_validate, as exercised by tests/test_plan_roundtrip.py   -/
/- ------------------------------------------------------------------ -/

inductive Json where
  | null : Json
  | bool (b : Bool) : Json
  | num (q : ℚ) : Json
  | str (s : String) : Json
  | arr (elems : List Json) : Json
  | obj (fields : List (String × Json)) : Json

def serializeStrMap (m : List (String × String)) : Json :=
  Json.obj (m.map (fun kv => (kv.1, Json.str kv.2)))

/-- Serialization of one operation. The Wire variant writes its source
endpoint under the alias key "from" (not the internal field identifier
from_), per `Field(alias="from")` with by_alias=True. -/
def serializeOp : Op → Json
  | .add_component ref symbol value at_ rot fields =>
    Json.obj [("op", Json.str "add_component"), ("ref", Json.str ref),
      ("symbol", Json.str symbol), ("value", Json.str value),
      ("at", Json.arr [Json.num at_.1, Json.num at_.2]),
      ("rot", Json.num (rot : ℚ)), ("fields", serializeStrMap fields)]
  | .wire from_ to_ =>
    Json.obj [("op", Json.str "wire"), ("from", Json.str from_),
      ("to", Json.str to_)]
  | .label net at_ =>
    Json.obj [("op", Json.str "label"), ("net", Json.str net),
      ("at", Json.arr [Json.num at_.1, Json.num at_.2])]

def serializePlan (p : Plan) : Json :=
  Json.obj [("plan_version", Json.num (p.plan_version : ℚ)),
    ("ops", Json.arr (p.ops.map serializeOp)),
    ("constraints", serializeStrMap p.constraints)]

def getField (j : Json) (k : String) : Option Json :=
  match j with
  | Json.obj fields => dictGet fields k
  | _ => none

def asStr : Json → Option String
  | Json.str s => some s
  | _ => none

/-- An integer-typed field accepts a JSON number with integral value. -/
def asInt (j : Json) : Option Int :=
  match j with
  | Json.num q => if q.den = 1 then some q.num else none
  | _ => none

def asCoord (j : Json) : Option (ℚ × ℚ) :=
  match j with
  | Json.arr [Json.num x, Json.num y] => some (x, y)
  | _ => none

def parseStrMap (j : Json) : Option (List (String × String)) :=
  match j with
  | Json.obj fields =>
    fields.foldr (fun kv acc =>
      match asStr kv.2, acc with
      | some v, some rest => some ((kv.1, v) :: rest)
      | _, _ => none) (some [])
  | _ => none

/-- Validation of one operation object: the tagged union discriminates on the
"op" literal. The Wire variant accepts its source endpoint under the alias
"from" first, falling back to the field name "from_" (populate_by_name). -/
def parseOp (j : Json) : Option Op :=
  match getField j "op" with
  | some (Json.str "add_component") =>
    match getField j "ref", getField j "symbol", getField j "value",
        getField j "at", getField j "rot", getField j "fields" with
    | some jr, some js, some jv, some ja, some jrot, some jf =>
      match asStr jr, asStr js, asStr jv, asCoord ja, asInt jrot,
          parseStrMap jf with
      | some ref, some symbol, some value, some at_, some rot, some fields =>
        some (Op.add_component ref symbol value at_ rot fields)
      | _, _, _, _, _, _ => none
    | _, _, _, _, _, _ => none
  | some (Json.str "wire") =>
    match (match getField j "from" with
           | some v => some v
           | none => getField j "from_"), getField j "to" with
    | some jf, some jt =>
      match asStr jf, asStr jt with
      | some from_, some to_ => some (Op.wire from_ to_)
      | _, _ => none
    | _, _ => none
  | some (Json.str "label") =>
    match getField j "net", getField j "at" with
    | some jn, some ja =>
      match asStr jn, asCoord ja with
      | some net, some at_ => some (Op.label net at_)
      | _, _ => none
    | _, _ => none
  | _ => none

def parseOpList : List Json → Option (List Op)
  | [] => some []
  | j :: rest =>
    match parseOp j, parseOpList rest with
    | some op, some ops => some (op :: ops)
    | _, _ => none

/-- Plan validation: plan_version and constraints fall back to their schema
defaults when absent; a present field of the wrong shape is a validation
failure. -/
def parsePlan (j : Json) : Option Plan :=
  match (match getField j "plan_version" with
         | some jv => asInt jv
         | none => some PLAN_SCHEMA_VERSION),
      getField j "ops",
      (match getField j "constraints" with
       | some jc => parseStrMap jc
       | none => some []) with
  | some v, some (Json.arr elems), some cs =>
    match parseOpList elems with
    | some ops => some ⟨v, ops, cs⟩
    | none => none
  | _, _, _ => none

theorem roundHalfEven_intCast (n : ℤ) : roundHalfEven (n : ℚ) = n := by
  unfold roundHalfEven
  rw [Int.floor_intCast]
  norm_num

/-- C5: snap_to_grid is idempotent on every rational input, and its result is
always an exact integer multiple of the grid constant 2.54. -/
theorem snap_to_grid_idempotent_and_multiple (x : ℚ) :
    snap_to_grid (snap_to_grid x GRID_MM) GRID_MM = snap_to_grid x GRID_MM ∧
    ∃ n : ℤ, snap_to_grid x GRID_MM = (n : ℚ) * GRID_MM := by
  have hg : (GRID_MM : ℚ) ≠ 0 := by norm_num [GRID_MM]
  constructor
  · show snap_to_grid ((roundHalfEven (x / GRID_MM) : ℚ) * GRID_MM) GRID_MM = _
    unfold snap_to_grid
    rw [mul_div_assoc, div_self hg, mul_one, roundHalfEven_intCast]
  · exact ⟨roundHalfEven (x / GRID_MM), rfl⟩

theorem snap_to_grid_tie (k : ℤ) :
    snap_to_grid (((k : ℚ) + 1 / 2) * GRID_MM) GRID_MM =
      ((if k % 2 = 0 then k else k + 1 : ℤ) : ℚ) * GRID_MM := by
  have hg : (GRID_MM : ℚ) ≠ 0 := by norm_num [GRID_MM]
  have hdiv : ((k : ℚ) + 1 / 2) * GRID_MM / GRID_MM = (k : ℚ) + 1 / 2 :=
    mul_div_cancel_right₀ _ hg
  have hfloor : ⌊(k : ℚ) + 1 / 2⌋ = k := by
    rw [add_comm, Int.floor_add_int]
    norm_num
  unfold snap_to_grid roundHalfEven
  rw [hdiv, hfloor]
  have htie : (k : ℚ) + 1 / 2 - (k : ℚ) = 1 / 2 := by ring
  rw [htie]
  norm_num

/-- C10: snap_to_grid resolves half-grid ties to the even grid multiple
(round-half-to-even): every coordinate exactly halfway between two grid
points snaps to an even multiple of 2.54, and concretely
snap_to_grid 1.27 = 0 (not 2.54). -/
theorem snap_to_grid_half_even :
    (∀ k : ℤ, ∃ n : ℤ, n % 2 = 0 ∧
        snap_to_grid (((k : ℚ) + 1 / 2) * GRID_MM) GRID_MM = (n : ℚ) * GRID_MM) ∧
    snap_to_grid (127 / 100) GRID_MM = 0 := by
  constructor
  · intro k
    by_cases hk : k % 2 = 0
    · exact ⟨k, hk, by rw [snap_to_grid_tie, if_pos hk]⟩
    · exact ⟨k + 1, by omega, by rw [snap_to_grid_tie, if_neg hk]⟩
  · have h : (127 / 100 : ℚ) = (((0 : ℤ) : ℚ) + 1 / 2) * GRID_MM := by
      norm_num [GRID_MM]
    rw [h, snap_to_grid_tie]
    norm_num

theorem mem_dropWhile_of_not (p : Char → Bool) {c : Char} :
    ∀ {l : List Char}, c ∈ l → p c = false → c ∈ l.dropWhile p := by
  intro l
  induction l with
  | nil => intro h; exact absurd h (List.not_mem_nil c)
  | cons a as ih =>
    intro hm hc
    rw [List.dropWhile_cons]
    by_cases ha : p a = true
    · rw [if_pos ha]
      rcases List.mem_cons.mp hm with rfl | hm'
      · rw [ha] at hc; exact absurd hc (by simp)
      · exact ih hm' hc
    · rw [if_neg ha]
      exact hm

theorem mem_pyStrip {c : Char} {cs : List Char} (hm : c ∈ cs)
    (hs : isPySpace c = false) : c ∈ pyStrip cs := by
  unfold pyStrip
  have h1 : c ∈ cs.dropWhile isPySpace := mem_dropWhile_of_not _ hm hs
  have h2 : c ∈ (cs.dropWhile isPySpace).reverse := List.mem_reverse.mpr h1
  have h3 : c ∈ (cs.dropWhile isPySpace).reverse.dropWhile isPySpace :=
    mem_dropWhile_of_not _ h2 hs
  exact List.mem_reverse.mpr h3

theorem splitFirstColon_colon_mem :
    ∀ {cs : List Char} {a b : List Char},
      splitFirstColon cs = some (a, b) → ':' ∈ cs := by
  intro cs
  induction cs with
  | nil => intro a b h; simp [splitFirstColon] at h
  | cons c rest ih =>
    intro a b h
    rw [splitFirstColon] at h
    by_cases hc : c = ':'
    · exact hc ▸ List.mem_cons_self _ _
    · rw [if_neg hc] at h
      rcases hsplit : splitFirstColon rest with _ | ⟨a', b'⟩
      · rw [hsplit] at h; exact absurd h (by simp)
      · exact List.mem_cons_of_mem _ (ih hsplit)

theorem pyStrip_ne_nil_of_colon {cs a b : List Char}
    (h : splitFirstColon cs = some (a, b)) : pyStrip cs ≠ [] := by
  have hmem : ':' ∈ pyStrip cs :=
    mem_pyStrip (splitFirstColon_colon_mem h) (by decide)
  intro hnil
  rw [hnil] at hmem
  exact List.not_mem_nil _ hmem

/-- C7 (amended): validate_wire_format accepts exactly those strings that
split at the first colon into a reference part whose whitespace-stripped form
matches ^[A-Z]+[0-9]+$ and a pin part whose unstripped length is at most 50
and whose stripped form is non-empty; on acceptance it returns
(true, no error, (stripped ref, stripped pin)), otherwise
(false, an error message, no parse). -/
theorem validate_wire_format_characterization (s : String) :
    (validate_wire_format s).1 = wireFormatAccepts s ∧
    ((validate_wire_format s).1 = true →
      ∃ r p, splitFirstColon s.toList = some (r, p) ∧
        validate_wire_format s =
          (true, none, some (String.mk (pyStrip r), String.mk (pyStrip p)))) ∧
    ((validate_wire_format s).1 = false →
      (validate_wire_format s).2.1.isSome = true ∧
        (validate_wire_format s).2.2 = none) := by
  rcases hsplit : splitFirstColon s.toList with _ | ⟨r, p⟩
  · by_cases he : pyStrip s.toList = []
    · simp [validate_wire_format, wireFormatAccepts, String.toList] at *
      simp [hsplit, he]
    · simp [validate_wire_format, wireFormatAccepts, String.toList] at *
      simp [hsplit, he]
  · have hne : pyStrip s.toList ≠ [] := pyStrip_ne_nil_of_colon hsplit
    simp only [validate_wire_format, wireFormatAccepts, String.toList] at *
    rw [if_neg hne, hsplit]
    dsimp only
    by_cases h1 : pyStrip r = []
    · simp [h1, refPatternMatch]
    · rw [if_neg h1]
      by_cases h2 : refPatternMatch (pyStrip r) = false
      · simp [h2]
      · have h2' : refPatternMatch (pyStrip r) = true := by
          cases hb : refPatternMatch (pyStrip r)
          · exact absurd hb h2
          · rfl
        rw [if_neg h2]
        by_cases h3 : pyStrip p = []
        · simp [h3, h2']
        · rw [if_neg h3]
          by_cases h4 : 50 < p.length
          · have h4' : ¬ p.length ≤ 50 := Nat.not_le.mpr h4
            simp [h4, h4', h2', h3]
          · have h4' : p.length ≤ 50 := Nat.le_of_not_lt h4
            rw [if_neg h4]
            refine ⟨by simp [h2', h3, h4'], fun _ => ⟨r, p, rfl, rfl⟩, ?_⟩
            intro hfalse
            exact absurd hfalse (by simp)

/-- C7 counterexample: the claim as stated rejects " R1:1" (its pre-colon
part " R1" does not match ^[A-Z]+[0-9]+$), but validate_wire_format strips
whitespace first and accepts it. -/
theorem validate_wire_format_strip_cex :
    (validate_wire_format " R1:1").1 = true ∧
      wireFormatSpecAccepts " R1:1" = false := by
  constructor
  · decide
  · decide

theorem validate_wire_format_characterization_witness :
    (validate_wire_format "R1:1").1 = true ∧
    (∃ r p, splitFirstColon "R1:1".toList = some (r, p) ∧
      validate_wire_format "R1:1" =
        (true, none, some (String.mk (pyStrip r), String.mk (pyStrip p)))) :=
  ⟨by decide, (validate_wire_format_characterization "R1:1").2.1 (by decide)⟩

/-- C1: for every document and every plan whose plan_version differs from the
expected schema version 1, apply_plan returns success=false, exactly one
error-severity diagnostic with stage=validator, affected_refs=[], and the
document is unchanged (no collection receives any entry; the early return
precedes all index building). -/
theorem apply_plan_version_gate (env : Env) (doc : Document) (plan : Plan)
    (h : plan.plan_version ≠ PLAN_SCHEMA_VERSION) :
    (apply_plan env doc plan).1.success = false ∧
    (∃ d : Diagnostic, (apply_plan env doc plan).1.diagnostics = [d] ∧
      d.severity = "error" ∧ d.stage = "validator") ∧
    (apply_plan env doc plan).1.affected_refs = [] ∧
    (apply_plan env doc plan).2 = doc := by
  unfold apply_plan
  rw [if_pos h]
  exact ⟨rfl, ⟨_, rfl, rfl, rfl⟩, rfl, rfl⟩

theorem apply_plan_version_gate_witness :
    (apply_plan env0 docEmpty planV2).1.success = false ∧
    (∃ d : Diagnostic, (apply_plan env0 docEmpty planV2).1.diagnostics = [d] ∧
      d.severity = "error" ∧ d.stage = "validator") ∧
    (apply_plan env0 docEmpty planV2).1.affected_refs = [] ∧
    (apply_plan env0 docEmpty planV2).2 = docEmpty :=
  apply_plan_version_gate env0 docEmpty planV2 (by decide)

/-- C2: for every ApplyResult produced by apply_plan, the success flag equals
the predicate "no diagnostic in the list has severity error"; this also holds
on the version-mismatch path, whose single diagnostic is an error. -/
theorem apply_plan_success_iff_no_error (env : Env) (doc : Document)
    (plan : Plan) :
    (apply_plan env doc plan).1.success = true ↔
      ∀ d ∈ (apply_plan env doc plan).1.diagnostics, d.severity ≠ "error" := by
  unfold apply_plan
  split
  · simp
  · simp [List.any_eq_false, Bool.not_eq_true', beq_eq_false_iff_ne]

/-- C9: applying a plan with the expected version and an empty operation list
succeeds with no diagnostics, no affected refs, and an unchanged document. -/
theorem apply_plan_empty_plan (env : Env) (doc : Document)
    (c : List (String × String)) :
    apply_plan env doc ⟨PLAN_SCHEMA_VERSION, [], c⟩ = (⟨true, [], []⟩, doc) :=
  rfl

/-- C3 (amended): for a plan (matching version) with one AddComponent whose
symbol name is malformed followed by one valid Label operation, apply_plan
returns success=false (an error diagnostic is present) and the label IS still
created in the document's label collection — one failed operation never
prevents later independent operations — but label operations are never
recorded in affected_refs, which stays empty for this plan. -/
theorem apply_plan_local_recovery (env : Env) (doc : Document)
    (ref symbol value : String) (a : ℚ × ℚ) (rot : Int)
    (fields : List (String × String)) (net : String) (la : ℚ × ℚ)
    (c : List (String × String))
    (hsym : (validate_symbol_name symbol).1 = false)
    (hcoord : (validate_coordinate la).1 = true) :
    (apply_plan env doc
        ⟨PLAN_SCHEMA_VERSION,
         [Op.add_component ref symbol value a rot fields, Op.label net la],
         c⟩).1.success = false ∧
    (apply_plan env doc
        ⟨PLAN_SCHEMA_VERSION,
         [Op.add_component ref symbol value a rot fields, Op.label net la],
         c⟩).2.label = doc.label ++ [⟨net, snapPoint la⟩] ∧
    (apply_plan env doc
        ⟨PLAN_SCHEMA_VERSION,
         [Op.add_component ref symbol value a rot fields, Op.label net la],
         c⟩).1.affected_refs = [] := by
  simp [apply_plan, applyOp, applyAddComponent, applyLabelOp, hsym, hcoord,
    PLAN_SCHEMA_VERSION]

/-- C3 counterexample: on a concrete plan with one malformed AddComponent and
one valid Label, apply succeeds in creating the label (the label collection
gains one entry) and returns success=false, yet affected_refs is empty — the
label is NOT recorded in affected_refs, contrary to the claim as stated. -/
theorem label_not_recorded_in_affected_refs_cex :
    (apply_plan env0 docEmpty planBadSymThenLabel).1.success = false ∧
    (apply_plan env0 docEmpty planBadSymThenLabel).2.label.length = 1 ∧
    (apply_plan env0 docEmpty planBadSymThenLabel).1.affected_refs = [] := by
  refine ⟨rfl, rfl, rfl⟩

theorem apply_plan_local_recovery_witness :
    (validate_symbol_name "DeviceR").1 = false ∧
    (validate_coordinate ((0 : ℚ), (0 : ℚ))).1 = true ∧
    ((apply_plan env0 docEmpty
        ⟨PLAN_SCHEMA_VERSION,
         [Op.add_component "R1" "DeviceR" "1k" (0, 0) 0 [],
          Op.label "VCC" (0, 0)], []⟩).1.success = false ∧
      (apply_plan env0 docEmpty
        ⟨PLAN_SCHEMA_VERSION,
         [Op.add_component "R1" "DeviceR" "1k" (0, 0) 0 [],
          Op.label "VCC" (0, 0)], []⟩).2.label =
        docEmpty.label ++ [⟨"VCC", snapPoint (0, 0)⟩] ∧
      (apply_plan env0 docEmpty
        ⟨PLAN_SCHEMA_VERSION,
         [Op.add_component "R1" "DeviceR" "1k" (0, 0) 0 [],
          Op.label "VCC" (0, 0)], []⟩).1.affected_refs = []) :=
  ⟨by decide, by decide,
    apply_plan_local_recovery env0 docEmpty "R1" "DeviceR" "1k" (0, 0) 0 []
      "VCC" (0, 0) [] (by decide) (by decide)⟩

/-- C4: wire-endpoint pin lookup has exactly three failure modes with
distinct diagnostics: (1) reference absent from the index — error, component
not found, suggests adding it first; (2) reference present but no pin data
obtainable — warning (not error) explaining the transient cause and
suggesting save/reload; (3) reference present, pin data obtainable, but the
named pin missing — error whose suggestion lists the first 10 available pin
identifiers. In every failure mode no coordinate is returned, and a wire
operation whose endpoint lookup fails creates no wire. -/
theorem lookup_pin_coords_failure_modes (ref pin : String)
    (ridx : List (String × SymbolModel))
    (pidx : List (String × List (String × Option (ℚ × ℚ)))) :
    (dictGet ridx ref = none →
      lookup_pin_coords ref pin ridx pidx =
        (none, [⟨"writer", "error", some ref,
          "Component " ++ ref ++ " not found in schematic",
          some "Ensure component is added before wiring"⟩])) ∧
    (∀ sym, dictGet ridx ref = some sym →
      get_pin_locations_compat sym = [] →
      lookup_pin_coords ref pin ridx pidx =
        (none, [⟨"writer", "warning", some ref,
          "Pin coordinates not yet available for " ++ ref ++
            " (symbol created but library definitions not loaded)",
          some "Save and reload schematic, or wire will be skipped for now"⟩])) ∧
    (∀ sym, dictGet ridx ref = some sym →
      get_pin_locations_compat sym ≠ [] →
      dictGet (get_pin_locations_compat sym) pin = none →
      lookup_pin_coords ref pin ridx pidx =
        (none, [⟨"writer", "error", some ref,
          "Pin " ++ pin ++ " not found on " ++ ref,
          some ("Available pins: " ++ String.intercalate ", "
            ((dictKeys (get_pin_locations_compat sym)).take 10))⟩])) ∧
    (∀ (env : Env) (st : ApplyState) (f t fr fp tr tp : String),
      validate_wire_format f = (true, none, some (fr, fp)) →
      validate_wire_format t = (true, none, some (tr, tp)) →
      ((lookup_pin_coords fr fp (wireRefIndex st) (wirePinIndex st)).1 = none ∨
        (lookup_pin_coords tr tp (wireRefIndex st) (wirePinIndex st)).1 = none) →
      (applyOp env st (Op.wire f t)).doc.wire = st.doc.wire) := by
  refine ⟨?_, ?_, ?_, ?_⟩
  · intro h
    simp [lookup_pin_coords, h]
  · intro sym hs hempty
    simp [lookup_pin_coords, hs, hempty]
  · intro sym hs hne hpin
    simp [lookup_pin_coords, hs, hne, hpin]
  · intro env st f t fr fp tr tp hf ht hnone
    rcases hnone with h | h
    · simp [applyOp, applyWireOp, hf, ht, h]
    · cases hF : (lookup_pin_coords fr fp (wireRefIndex st) (wirePinIndex st)).1 with
      | none => simp [applyOp, applyWireOp, hf, ht, hF]
      | some p1 =>
        simp [applyOp, applyWireOp, hf, ht, hF, h]

theorem lookup_pin_coords_failure_modes_witness :
    (dictGet refIdx1 "R9" = none ∧
      lookup_pin_coords "R9" "1" refIdx1 [] =
        (none, [⟨"writer", "error", some "R9",
          "Component " ++ "R9" ++ " not found in schematic",
          some "Ensure component is added before wiring"⟩])) ∧
    (dictGet refIdx1 "R2" = some symNoPins ∧
      get_pin_locations_compat symNoPins = [] ∧
      lookup_pin_coords "R2" "1" refIdx1 [] =
        (none, [⟨"writer", "warning", some "R2",
          "Pin coordinates not yet available for " ++ "R2" ++
            " (symbol created but library definitions not loaded)",
          some "Save and reload schematic, or wire will be skipped for now"⟩])) ∧
    (dictGet refIdx1 "R3" = some symOnePin ∧
      get_pin_locations_compat symOnePin ≠ [] ∧
      dictGet (get_pin_locations_compat symOnePin) "7" = none ∧
      lookup_pin_coords "R3" "7" refIdx1 [] =
        (none, [⟨"writer", "error", some "R3",
          "Pin " ++ "7" ++ " not found on " ++ "R3",
          some ("Available pins: " ++ String.intercalate ", "
            ((dictKeys (get_pin_locations_compat symOnePin)).take 10))⟩])) ∧
    (validate_wire_format "R9:1" = (true, none, some ("R9", "1")) ∧
      validate_wire_format "R3:1" = (true, none, some ("R3", "1")) ∧
      (lookup_pin_coords "R9" "1" (wireRefIndex st0) (wirePinIndex st0)).1 = none ∧
      (applyOp env0 st0 (Op.wire "R9:1" "R3:1")).doc.wire = st0.doc.wire) :=
  ⟨⟨by decide,
      (lookup_pin_coords_failure_modes "R9" "1" refIdx1 []).1 (by decide)⟩,
    ⟨by decide, by decide,
      (lookup_pin_coords_failure_modes "R2" "1" refIdx1 []).2.1 symNoPins
        (by decide) (by decide)⟩,
    ⟨by decide, by decide, by decide,
      (lookup_pin_coords_failure_modes "R3" "7" refIdx1 []).2.2.1 symOnePin
        (by decide) (by decide) (by decide)⟩,
    ⟨by decide, by decide, by decide,
      (lookup_pin_coords_failure_modes "R9" "1" refIdx1 []).2.2.2 env0 st0
        "R9:1" "R3:1" "R9" "1" "R3" "1" (by decide) (by decide)
        (Or.inl (by decide))⟩⟩

/-- C6: when no pin-location data is obtainable for a symbol (the
pin-location API is unavailable and the pin collection is absent or empty),
get_pin_locations_compat returns the hard-coded two-pin fallback — pin "1" at
(x − 2.54, y) and pin "2" at (x + 2.54, y) — when the symbol position (x, y)
is known, and the empty mapping when the position is unknown. -/
theorem get_pin_locations_compat_fallback (sym : SymbolModel)
    (hapi : sym.pinLocsApi = none)
    (hpins : sym.pinColl = none ∨ sym.pinColl = some []) :
    (∀ x y : ℚ, sym.atPos = some (x, y) →
      get_pin_locations_compat sym =
        [("1", (x - 254 / 100, y)), ("2", (x + 254 / 100, y))]) ∧
    (sym.atPos = none → get_pin_locations_compat sym = []) := by
  constructor
  · intro x y hat
    rcases hpins with h | h <;>
      simp [get_pin_locations_compat, fallbackPinLocations, hapi, h, hat]
  · intro hat
    rcases hpins with h | h <;>
      simp [get_pin_locations_compat, fallbackPinLocations, hapi, h, hat]

theorem get_pin_locations_compat_fallback_witness :
    symFresh.pinLocsApi = none ∧
    (symFresh.pinColl = none ∨ symFresh.pinColl = some []) ∧
    symFresh.atPos = some ((0 : ℚ), (0 : ℚ)) ∧
    get_pin_locations_compat symFresh =
      [("1", ((0 : ℚ) - 254 / 100, (0 : ℚ))),
       ("2", ((0 : ℚ) + 254 / 100, (0 : ℚ)))] :=
  ⟨rfl, Or.inl rfl, rfl,
    (get_pin_locations_compat_fallback symFresh rfl (Or.inl rfl)).1 0 0 rfl⟩

theorem parseStrMap_serializeStrMap (m : List (String × String)) :
    parseStrMap (serializeStrMap m) = some m := by
  induction m with
  | nil => rfl
  | cons kv rest ih =>
    simp [serializeStrMap, parseStrMap, asStr] at *
    simp [ih]

theorem parseOp_serializeOp (op : Op) : parseOp (serializeOp op) = some op := by
  cases op with
  | add_component ref symbol value at_ rot fields =>
    simp [serializeOp, parseOp, getField, dictGet, asStr, asCoord, asInt,
      Rat.den_intCast, Rat.num_intCast, parseStrMap_serializeStrMap]
  | wire from_ to_ => rfl
  | label net at_ => rfl

theorem parseOpList_serialize (l : List Op) :
    parseOpList (l.map serializeOp) = some l := by
  induction l with
  | nil => rfl
  | cons o rest ih => simp [parseOpList, parseOp_serializeOp, ih]

/-- C8: serializing any Plan to its wire JSON and re-parsing yields the same
Plan (same plan_version, same operations with all fields, same constraints),
and the serialized Wire operation carries its source endpoint under the key
"from", not the internal field identifier from_. -/
theorem plan_roundtrip_and_from_alias (p : Plan) :
    parsePlan (serializePlan p) = some p ∧
    ∀ from_ to_ : String, serializeOp (Op.wire from_ to_) =
      Json.obj [("op", Json.str "wire"), ("from", Json.str from_),
        ("to", Json.str to_)] := by
  constructor
  · simp [parsePlan, serializePlan, getField, dictGet, asInt,
      Rat.den_intCast, Rat.num_intCast, parseStrMap_serializeStrMap,
      parseOpList_serialize]
  · intro from_ to_
    rfl
